import Mathlib

/-!
Verification of the native audio bindings (audiotee_napi.cpp /
coreaudio_napi.cpp): a shallow embedding of the event bridge, the session
wrapper lifecycle, start/stop error plumbing, device-list decoding, the
permission request callback, and JS option extraction, together with proofs
of the specified properties.

Both `AudioTeeWrapper` and `AudioRecorderWrapper` contain a textually
identical event queue (struct AudioEvent, QueueEvent, DrainEvents,
OnData/OnEvent/OnMetadata, the destructor); the model below embeds that
shared code once.
-/

namespace NativeAudio

/-- The empty C string / empty std::string. -/
def emptyText : String := ""

/-- Mirror of `struct AudioEvent` (audiotee_napi.cpp lines 12-21,
coreaudio_napi.cpp lines 13-22).  `type` is the int32 discriminant
(0=data, 1=start, 2=stop, 3=error, 4=metadata).  Fields a given event type
never sets are left default-initialized here (the C++ leaves them
indeterminate, but `ProcessEvents` only ever reads the fields belonging to
the event's tag, so the defaults are unobservable). -/
structure AudioEvent where
  type : Int := 0
  data : List Nat := []
  message : String := emptyText
  sampleRate : Rat := 0
  channelsPerFrame : Nat := 0
  bitsPerChannel : Nat := 0
  isFloat : Bool := false
  encoding : String := emptyText
deriving Repr, DecidableEq

/-- The wrapper's own mutable fields (audiotee_napi.cpp lines 49-52):
the event FIFO (`eventQueue_`, head of the list = front of the queue),
the atomic destroyed flag (`isDestroyed_`), and whether the collaborator
session handle (`handle_`) is still held. -/
structure WrapperState where
  eventQueue : List AudioEvent := []
  isDestroyed : Bool := false
  hasHandle : Bool := true
deriving Repr, DecidableEq

/-- `AudioTeeWrapper::QueueEvent` (lines 273-276): append to the tail of
the FIFO under the queue lock.  Note the function itself performs no
destroyed-flag check. -/
def QueueEvent (s : WrapperState) (e : AudioEvent) : WrapperState :=
  { s with eventQueue := s.eventQueue ++ [e] }

/-- `AudioTeeWrapper::DrainEvents` (lines 278-286): under the queue lock,
pop every queued event into a vector in FIFO order and return it, leaving
the queue empty. -/
def DrainEvents (s : WrapperState) : List AudioEvent × WrapperState :=
  (s.eventQueue, { s with eventQueue := [] })

/-- `AudioTeeWrapper::OnData` (lines 233-241): first action checks
`isDestroyed_` and returns if set; otherwise builds a type-0 event whose
payload copies exactly `length` bytes (`data.assign(data, data + length)`)
and enqueues it. -/
def OnData (s : WrapperState) (bytes : List Nat) : WrapperState :=
  if s.isDestroyed then s
  else QueueEvent s { type := 0, data := bytes }

/-- `AudioTeeWrapper::OnEvent` (lines 243-255): first action checks
`isDestroyed_`; otherwise remaps the Swift event type by +1
(0=start to 1, 1=stop to 2, 2=error to 3) and copies the message when the
pointer is non-null (a null message leaves the default empty string). -/
def OnEvent (s : WrapperState) (eventType : Int) (message : Option String) :
    WrapperState :=
  if s.isDestroyed then s
  else QueueEvent s { type := eventType + 1, message := (message).getD emptyText }

/-- `AudioTeeWrapper::OnMetadata` (lines 257-271): first action checks
`isDestroyed_`; otherwise enqueues a type-4 event carrying the format
fields; a null encoding pointer becomes the empty string. -/
def OnMetadata (s : WrapperState) (sampleRate : Rat)
    (channelsPerFrame bitsPerChannel : Nat) (isFloat : Bool)
    (encoding : Option String) : WrapperState :=
  if s.isDestroyed then s
  else
    QueueEvent s
      { type := 4, sampleRate := sampleRate,
        channelsPerFrame := channelsPerFrame, bitsPerChannel := bitsPerChannel,
        isFloat := isFloat, encoding := (encoding).getD emptyText }

/-- First statement of the destructor (line 91): `isDestroyed_ = true;`. -/
def setDestroyedFlag (s : WrapperState) : WrapperState :=
  { s with isDestroyed := true }

/-- Second part of the destructor body (lines 92-95):
`if (handle_) \x7b audiotee_destroy(handle_); handle_ = nullptr; \x7d`. -/
def releaseHandle (s : WrapperState) : WrapperState :=
  if s.hasHandle then { s with hasHandle := false } else s

/-- Implicit member destruction after the destructor body: `eventQueue_`
is destroyed with all events still in it, so a destroyed wrapper holds no
queued events. -/
def memberCleanup (s : WrapperState) : WrapperState :=
  { s with eventQueue := [] }

/-- `AudioTeeWrapper::~AudioTeeWrapper` (lines 90-96) as a whole, in
source order: set the destroyed flag, then release the collaborator
handle, then member destruction frees the queue. -/
def destroyWrapper (s : WrapperState) : WrapperState :=
  memberCleanup (releaseHandle (setDestroyedFlag s))

/-- One producer-callback invocation arriving from the capture thread,
with the arguments the collaborator passed it. -/
inductive ProducerStep where
  | data (bytes : List Nat)
  | event (eventType : Int) (message : Option String)
  | metadata (sampleRate : Rat) (channelsPerFrame bitsPerChannel : Nat)
      (isFloat : Bool) (encoding : Option String)
deriving Repr, DecidableEq

/-- Dispatch a producer callback to its entry point. -/
def applyProducer (s : WrapperState) : ProducerStep → WrapperState
  | .data bytes => OnData s bytes
  | .event t m => OnEvent s t m
  | .metadata sr ch bits f enc => OnMetadata s sr ch bits f enc

/-- One atomic step of the wrapper's step relation: a producer callback,
a consumer drain, or the destructor. -/
inductive Step where
  | producer (p : ProducerStep)
  | drain
  | destroy
deriving Repr, DecidableEq

/-- State after one step. -/
def applyStep (s : WrapperState) : Step → WrapperState
  | .producer p => applyProducer s p
  | .drain => (DrainEvents s).2
  | .destroy => destroyWrapper s

/-- Run a sequence of steps from a state. -/
def runSteps (s : WrapperState) (l : List Step) : WrapperState :=
  l.foldl applyStep s

/-! ### Helper lemmas about the queue and the destroyed flag -/

/-- Enqueueing a list of events appends it to the queue in order. -/
lemma eventQueue_foldl_queueEvent (es : List AudioEvent) (s : WrapperState) :
    (es.foldl QueueEvent s).eventQueue = s.eventQueue ++ es := by
  induction es generalizing s with
  | nil => simp [List.foldl]
  | cons e es ih => simp [List.foldl, QueueEvent, ih]

/-- Producer callbacks on a destroyed wrapper return it unchanged. -/
lemma applyProducer_destroyed (s : WrapperState) (p : ProducerStep)
    (hd : s.isDestroyed = true) : applyProducer s p = s := by
  cases p <;> simp [applyProducer, OnData, OnEvent, OnMetadata, hd]

/-- `releaseHandle` does not touch the destroyed flag. -/
lemma releaseHandle_isDestroyed (s : WrapperState) :
    (releaseHandle s).isDestroyed = s.isDestroyed := by
  unfold releaseHandle; split <;> rfl

/-- `releaseHandle` does not touch the queue. -/
lemma releaseHandle_eventQueue (s : WrapperState) :
    (releaseHandle s).eventQueue = s.eventQueue := by
  unfold releaseHandle; split <;> rfl

/-- After the destructor, the flag is set and the queue is gone. -/
lemma destroyWrapper_destroyed (s : WrapperState) :
    (destroyWrapper s).isDestroyed = true ∧ (destroyWrapper s).eventQueue = [] := by
  constructor
  · simp [destroyWrapper, memberCleanup, releaseHandle_isDestroyed, setDestroyedFlag]
  · simp [destroyWrapper, memberCleanup]

/-- Invariant: once the wrapper is destroyed with an empty queue, every
further step keeps it destroyed with an empty queue. -/
lemma destroyed_empty_invariant (steps : List Step) (s : WrapperState)
    (hd : s.isDestroyed = true) (hq : s.eventQueue = []) :
    (runSteps s steps).isDestroyed = true ∧ (runSteps s steps).eventQueue = [] := by
  induction steps generalizing s with
  | nil => exact ⟨hd, hq⟩
  | cons st steps ih =>
    have hstep : (applyStep s st).isDestroyed = true ∧
        (applyStep s st).eventQueue = [] := by
      cases st with
      | producer p => rw [applyStep, applyProducer_destroyed s p hd]; exact ⟨hd, hq⟩
      | drain => exact ⟨hd, rfl⟩
      | destroy => exact destroyWrapper_destroyed s
    exact ih _ hstep.1 hstep.2

/-- Once destroyed, the queue never grows and the flag never clears. -/
lemma destroyed_queue_le (trace : List Step) (s : WrapperState)
    (hd : s.isDestroyed = true) :
    (runSteps s trace).isDestroyed = true ∧
      (runSteps s trace).eventQueue.length ≤ s.eventQueue.length := by
  induction trace generalizing s with
  | nil => exact ⟨hd, Nat.le_refl _⟩
  | cons st trace ih =>
    have hflag : (applyStep s st).isDestroyed = true := by
      cases st with
      | producer p => rw [applyStep, applyProducer_destroyed s p hd]; exact hd
      | drain => exact hd
      | destroy => exact (destroyWrapper_destroyed s).1
    have hlen : (applyStep s st).eventQueue.length ≤ s.eventQueue.length := by
      cases st with
      | producer p => rw [applyStep, applyProducer_destroyed s p hd]
      | drain => exact Nat.zero_le _
      | destroy =>
        rw [applyStep, (destroyWrapper_destroyed s).2]; exact Nat.zero_le _
    have := ih (applyStep s st) hflag
    exact ⟨this.1, Nat.le_trans this.2 hlen⟩

/-! ### Claim theorems: event bridge -/

/-- C1: for every sequence of events passed to `QueueEvent` on a
non-destroyed wrapper, a single subsequent `DrainEvents` call returns
exactly those events (after whatever was already queued), each exactly
once, in enqueue FIFO order, and leaves the queue empty. -/
theorem queue_fifo_drain (s : WrapperState) (es : List AudioEvent)
    (h : s.isDestroyed = false) :
    (DrainEvents (es.foldl QueueEvent s)).1 = s.eventQueue ++ es ∧
      (DrainEvents (es.foldl QueueEvent s)).2.eventQueue = [] := by
  exact ⟨eventQueue_foldl_queueEvent es s, rfl⟩

/-- Witness for C1 at a concrete input: a data chunk followed by a stop
event drain back in order from a fresh wrapper. -/
theorem queue_fifo_drain_witness :
    ({} : WrapperState).isDestroyed = false ∧
      ((DrainEvents (([{ type := 0, data := [0, 1, 2, 3] }, { type := 2 }] :
            List AudioEvent).foldl QueueEvent {})).1 =
          ({} : WrapperState).eventQueue ++
            [{ type := 0, data := [0, 1, 2, 3] }, { type := 2 }] ∧
        (DrainEvents (([{ type := 0, data := [0, 1, 2, 3] }, { type := 2 }] :
            List AudioEvent).foldl QueueEvent {})).2.eventQueue = []) :=
  ⟨rfl, queue_fifo_drain {} [{ type := 0, data := [0, 1, 2, 3] }, { type := 2 }] rfl⟩

/-- C2: after the destructor runs, every subsequent `DrainEvents` call
returns the empty sequence, whatever was queued before destruction and
whatever producer/drain/destroy steps are attempted afterwards. -/
theorem drain_after_destroy_empty (s : WrapperState) (steps : List Step) :
    (DrainEvents (runSteps (destroyWrapper s) steps)).1 = [] := by
  have h := destroyed_empty_invariant steps (destroyWrapper s)
    (destroyWrapper_destroyed s).1 (destroyWrapper_destroyed s).2
  exact h.2

/-- C3: every producer entry point checks the destroyed flag first and
enqueues nothing once it is set; the destructor sets the flag before
releasing the collaborator handle (so a callback landing between the two
substeps is already a no-op); the flag is permanent under every step; and
hence along any trace from a destroyed state the queue never grows. -/
theorem destroyed_flag_guards_enqueue (s t : WrapperState) (p : ProducerStep)
    (st : Step) (trace : List Step) (h : s.isDestroyed = true) :
    applyProducer s p = s ∧
      (applyStep s st).isDestroyed = true ∧
      (setDestroyedFlag t).isDestroyed = true ∧
      applyProducer (setDestroyedFlag t) p = setDestroyedFlag t ∧
      destroyWrapper t = memberCleanup (releaseHandle (setDestroyedFlag t)) ∧
      (runSteps s trace).eventQueue.length ≤ s.eventQueue.length := by
  refine ⟨applyProducer_destroyed s p h, ?_, rfl, applyProducer_destroyed _ p rfl,
    rfl, (destroyed_queue_le trace s h).2⟩
  cases st with
  | producer q => rw [applyStep, applyProducer_destroyed s q h]; exact h
  | drain => exact h
  | destroy => exact (destroyWrapper_destroyed s).1

/-- Witness for C3 at a concrete destroyed state and concrete steps. -/
theorem destroyed_flag_guards_enqueue_witness :
    ({ isDestroyed := true } : WrapperState).isDestroyed = true ∧
      (applyProducer { isDestroyed := true } (.data [7]) =
          { isDestroyed := true } ∧
        (applyStep { isDestroyed := true } .drain).isDestroyed = true ∧
        (setDestroyedFlag {}).isDestroyed = true ∧
        applyProducer (setDestroyedFlag {}) (.data [7]) = setDestroyedFlag {} ∧
        destroyWrapper {} = memberCleanup (releaseHandle (setDestroyedFlag {})) ∧
        (runSteps { isDestroyed := true } [.producer (.data [7])]).eventQueue.length ≤
          ({ isDestroyed := true } : WrapperState).eventQueue.length) :=
  ⟨rfl, destroyed_flag_guards_enqueue { isDestroyed := true } {} (.data [7])
    .drain [.producer (.data [7])] rfl⟩

/-- C8: a zero-length data callback on a non-destroyed wrapper enqueues a
type-0 event with an empty byte payload, and a subsequent drain delivers
that event with a zero-length buffer. -/
theorem zero_length_chunk_forwarded (s : WrapperState)
    (h : s.isDestroyed = false) :
    OnData s [] = QueueEvent s { type := 0, data := [] } ∧
      (DrainEvents (OnData s [])).1 = s.eventQueue ++ [{ type := 0, data := [] }] ∧
      ({ type := 0, data := [] } : AudioEvent).data.length = 0 := by
  refine ⟨by simp [OnData, h], ?_, rfl⟩
  simp [OnData, h, QueueEvent, DrainEvents]

/-- Witness for C8 on a fresh wrapper. -/
theorem zero_length_chunk_forwarded_witness :
    ({} : WrapperState).isDestroyed = false ∧
      (OnData {} [] = QueueEvent {} { type := 0, data := [] } ∧
        (DrainEvents (OnData {} [])).1 =
          ({} : WrapperState).eventQueue ++ [{ type := 0, data := [] }] ∧
        ({ type := 0, data := [] } : AudioEvent).data.length = 0) :=
  ⟨rfl, zero_length_chunk_forwarded {} rfl⟩

/-! ### Session start/stop error plumbing (C4, C5) -/

/-- Modelled from the spec: the Swift collaborator's running state, which
the wrapper only reads through `audiotee_is_running` /
`coreaudio_is_running`.  The collaborator implementation is not under
src/; only its C interface (audiotee_bridge.h, coreaudio_bridge.h) is. -/
structure CollabState where
  running : Bool := false
deriving Repr, DecidableEq

/-- Modelled from the spec: `stop(handle) -> statusCode` together with
spec section 4.2's "state transitions to `Stopped` regardless" — the
collaborator halts the stream whatever status code it reports.  `status`
is the code the collaborator chose to report. -/
def collab_stop (c : CollabState) (status : Int) : Int × CollabState :=
  (status, { c with running := false })

/-- Modelled from the spec: `startSystemAudio`/`startMicrophone`
`-> statusCode`; a nonzero status means the stream did not start (the
wrapper "remains in `Created` state on failure (not `Running`)"). -/
def collab_start (c : CollabState) (status : Int) : Int × CollabState :=
  (status, if status = 0 then { c with running := true } else c)

/-- Result of one wrapper method call at the host boundary: the
JavaScript exception it threw, if any (the method still returns
normally either way), plus the wrapper fields and collaborator state
after the call. -/
structure CallOutcome where
  threw : Option String := none
  wrapper : WrapperState
  collab : CollabState
deriving Repr, DecidableEq

/-- Error message of `AudioTeeWrapper::Stop` (line 177). -/
def failedStopAudioTee : String := "Failed to stop AudioTee"

/-- Error message of `AudioRecorderWrapper::Stop` (coreaudio_napi.cpp
line 236). -/
def failedStopRecording : String := "Failed to stop recording"

/-- Message head of `AudioTeeWrapper::Start` (line 164); `std::to_string`
of the status code is appended. -/
def audioteeStartMsgHead : String := "Failed to start AudioTee: error code "

/-- Message head of `AudioRecorderWrapper::StartSystemAudio`
(coreaudio_napi.cpp line 167). -/
def coreaudioStartMsgHead : String := "Failed to start system audio recording: error code "

/-- `AudioTeeWrapper::Stop` (lines 172-181): call `audiotee_stop`, throw
"Failed to stop AudioTee" iff the status is nonzero, touch no wrapper
field, and return `undefined` either way. -/
def audioteeStop (w : WrapperState) (c : CollabState) (status : Int) :
    CallOutcome :=
  let r := collab_stop c status
  { threw := if r.1 ≠ 0 then some failedStopAudioTee else none,
    wrapper := w, collab := r.2 }

/-- `AudioRecorderWrapper::Stop` (coreaudio_napi.cpp lines 231-240):
identical shape with its own message. -/
def coreaudioStop (w : WrapperState) (c : CollabState) (status : Int) :
    CallOutcome :=
  let r := collab_stop c status
  { threw := if r.1 ≠ 0 then some failedStopRecording else none,
    wrapper := w, collab := r.2 }

/-- `AudioTeeWrapper::Start` result handling (lines 151-169): call
`audiotee_start`, and on a nonzero status throw an error whose message
appends the status code verbatim; no wrapper field is written in either
branch. -/
def audioteeStart (w : WrapperState) (c : CollabState) (status : Int) :
    CallOutcome :=
  let r := collab_start c status
  { threw := if r.1 ≠ 0 then some (audioteeStartMsgHead ++ toString r.1) else none,
    wrapper := w, collab := r.2 }

/-- `AudioRecorderWrapper::StartSystemAudio` result handling
(coreaudio_napi.cpp lines 154-172). -/
def coreaudioStartSystemAudio (w : WrapperState) (c : CollabState)
    (status : Int) : CallOutcome :=
  let r := collab_start c status
  { threw := if r.1 ≠ 0 then some (coreaudioStartMsgHead ++ toString r.1) else none,
    wrapper := w, collab := r.2 }

/-- C4: both wrappers' `Stop` throws its stop error exactly when the
collaborator reports a nonzero status; the wrapper's own fields are
untouched (it does not mark or re-throw anything), and the stream is
halted regardless of the status, so `Destroyed` stays reachable. -/
theorem stop_error_iff_nonzero (w : WrapperState) (c : CollabState)
    (status : Int) :
    ((audioteeStop w c status).threw.isSome ↔ status ≠ 0) ∧
      (audioteeStop w c status).wrapper = w ∧
      (audioteeStop w c status).collab.running = false ∧
      ((coreaudioStop w c status).threw.isSome ↔ status ≠ 0) ∧
      (coreaudioStop w c status).wrapper = w ∧
      (coreaudioStop w c status).collab.running = false := by
  refine ⟨?_, rfl, rfl, ?_, rfl, rfl⟩ <;>
    · simp only [audioteeStop, coreaudioStop, collab_stop]
      split <;> simp_all

/-- Witness for C4 at a failing status and at a succeeding one. -/
theorem stop_error_iff_nonzero_witness :
    (((audioteeStop {} {} 5).threw.isSome ↔ (5 : Int) ≠ 0) ∧
        (audioteeStop {} {} 5).wrapper = {} ∧
        (audioteeStop {} {} 5).collab.running = false ∧
        ((coreaudioStop {} {} 5).threw.isSome ↔ (5 : Int) ≠ 0) ∧
        (coreaudioStop {} {} 5).wrapper = {} ∧
        (coreaudioStop {} {} 5).collab.running = false) ∧
      (audioteeStop {} { running := true } 0).threw = none :=
  ⟨stop_error_iff_nonzero {} {} 5, rfl⟩

/-- C5: both wrappers' system-audio start throws exactly when the
collaborator reports a nonzero status; the thrown message carries that
status code verbatim; on failure the wrapper's fields and the
collaborator state are unchanged (still not running, so the caller may
retry), and on success the stream is running. -/
theorem start_error_iff_nonzero (w : WrapperState) (c : CollabState)
    (status : Int) :
    ((audioteeStart w c status).threw.isSome ↔ status ≠ 0) ∧
      (status ≠ 0 →
        (audioteeStart w c status).threw =
            some (audioteeStartMsgHead ++ toString status) ∧
          (audioteeStart w c status).collab = c) ∧
      (audioteeStart w c status).wrapper = w ∧
      (audioteeStart w c 0).threw = none ∧
      (audioteeStart w c 0).collab.running = true ∧
      ((coreaudioStartSystemAudio w c status).threw.isSome ↔ status ≠ 0) ∧
      (status ≠ 0 →
        (coreaudioStartSystemAudio w c status).threw =
            some (coreaudioStartMsgHead ++ toString status) ∧
          (coreaudioStartSystemAudio w c status).collab = c) ∧
      (coreaudioStartSystemAudio w c status).wrapper = w ∧
      (coreaudioStartSystemAudio w c 0).threw = none ∧
      (coreaudioStartSystemAudio w c 0).collab.running = true := by
  refine ⟨?_, ?_, rfl, ?_, rfl, ?_, ?_, rfl, ?_, rfl⟩ <;>
    · simp only [audioteeStart, coreaudioStartSystemAudio, collab_start]
      intros <;> split <;> simp_all

/-- Witness for C5 at the concrete failing status -50. -/
theorem start_error_iff_nonzero_witness :
    ((audioteeStart {} {} (-50)).threw.isSome ↔ (-50 : Int) ≠ 0) ∧
      ((-50 : Int) ≠ 0 →
        (audioteeStart {} {} (-50)).threw =
            some (audioteeStartMsgHead ++ toString (-50 : Int)) ∧
          (audioteeStart {} {} (-50)).collab = {}) ∧
      (audioteeStart {} {} (-50)).wrapper = {} ∧
      (audioteeStart {} {} 0).threw = none ∧
      (audioteeStart {} {} 0).collab.running = true ∧
      ((coreaudioStartSystemAudio {} {} (-50)).threw.isSome ↔ (-50 : Int) ≠ 0) ∧
      ((-50 : Int) ≠ 0 →
        (coreaudioStartSystemAudio {} {} (-50)).threw =
            some (coreaudioStartMsgHead ++ toString (-50 : Int)) ∧
          (coreaudioStartSystemAudio {} {} (-50)).collab = {}) ∧
      (coreaudioStartSystemAudio {} {} (-50)).wrapper = {} ∧
      (coreaudioStartSystemAudio {} {} 0).threw = none ∧
      (coreaudioStartSystemAudio {} {} 0).collab.running = true :=
  start_error_iff_nonzero {} {} (-50)

/-! ### Device enumeration (C6, C10) -/

/-- One fixed 48-byte device record as filled in by
`coreaudio_list_devices` (coreaudio_bridge.h line 67) and read back by
`ListDevices` (coreaudio_napi.cpp lines 362-377).  Each text-handle field
is the C string behind the pointer stored at the given byte offset, or
`none` for a null pointer:
uid at offset 0, name at offset 8, manufacturer at offset 16,
isDefault/isInput/isOutput at offsets 24/25/26 (then 5 bytes padding),
sampleRate (float64) at offset 32, channelCount (uint32) at offset 40
(then 4 bytes padding). -/
structure RawDevice where
  uid : Option String
  name : Option String
  manufacturer : Option String
  isDefault : Bool
  isInput : Bool
  isOutput : Bool
  sampleRate : Rat
  channelCount : Nat
deriving Repr, DecidableEq

/-- The host-visible device object built by `ListDevices`
(coreaudio_napi.cpp lines 379-387). -/
structure DeviceDescriptor where
  id : String
  name : String
  manufacturer : String
  isDefault : Bool
  isInput : Bool
  isOutput : Bool
  sampleRate : Rat
  channelCount : Nat
deriving Repr, DecidableEq

/-- Decoding of one record (coreaudio_napi.cpp lines 370-387): a null
text handle becomes the empty string (`uid ? uid : ""` and likewise for
name and manufacturer); the scalar fields are copied through. -/
def decodeDevice (r : RawDevice) : DeviceDescriptor :=
  { id := (r.uid).getD emptyText,
    name := (r.name).getD emptyText,
    manufacturer := (r.manufacturer).getD emptyText,
    isDefault := r.isDefault, isInput := r.isInput, isOutput := r.isOutput,
    sampleRate := r.sampleRate, channelCount := r.channelCount }

/-- Outcome of one `ListDevices` call: the returned array, whether a
JavaScript error was thrown (never), and how many times
`coreaudio_free_device_list` was called. -/
structure ListDevicesOutcome where
  devices : List DeviceDescriptor
  threw : Bool
  freeCalls : Nat
deriving Repr, DecidableEq

/-- `ListDevices` (coreaudio_napi.cpp lines 351-393).  `status` is the
code returned by `coreaudio_list_devices`; `deviceArray` is the record
array it populated (none for a null pointer), whose length is the
`count` it reported.  The early return
`if (result != 0 || devices == nullptr || count == 0)` yields an empty
array without calling the free function; otherwise each record is
decoded in order and the list is freed exactly once after the copy. -/
def ListDevices (status : Int) (deviceArray : Option (List RawDevice)) :
    ListDevicesOutcome :=
  match deviceArray with
  | none => { devices := [], threw := false, freeCalls := 0 }
  | some records =>
    if status ≠ 0 ∨ records.length = 0 then
      { devices := [], threw := false, freeCalls := 0 }
    else
      { devices := records.map decodeDevice, threw := false, freeCalls := 1 }

/-- C6: on a successful enumeration, `ListDevices` decodes each record
into exactly one descriptor in order, never throws, and frees the list
exactly once; a null text handle in a record degrades to an
empty-string field; and zero devices yield the empty array with no
error. -/
theorem list_devices_decodes_records (status : Int)
    (records : List RawDevice) (r : RawDevice) (i : Nat)
    (h0 : status = 0) (hne : records ≠ [])
    (hu : r.uid = none) (hn : r.name = none) (hm : r.manufacturer = none) :
    (ListDevices status (some records)).devices.length = records.length ∧
      (ListDevices status (some records)).devices[i]? =
        (records[i]?).map decodeDevice ∧
      (ListDevices status (some records)).threw = false ∧
      (ListDevices status (some records)).freeCalls = 1 ∧
      (decodeDevice r).id = emptyText ∧
      (decodeDevice r).name = emptyText ∧
      (decodeDevice r).manufacturer = emptyText ∧
      ListDevices 0 (some []) =
        { devices := [], threw := false, freeCalls := 0 } := by
  subst h0
  refine ⟨?_, ?_, ?_, ?_, ?_, ?_, ?_, rfl⟩
  · simp [ListDevices, List.length_eq_zero, hne]
  · simp [ListDevices, List.length_eq_zero, hne, List.getElem?_map]
  · simp [ListDevices, List.length_eq_zero, hne]
  · simp [ListDevices, List.length_eq_zero, hne]
  · simp [decodeDevice, hu]
  · simp [decodeDevice, hn]
  · simp [decodeDevice, hm]

/-- Witness for C6: one all-null-handle record decodes to empty strings,
is returned as the single descriptor, and the list is freed once. -/
theorem list_devices_decodes_records_witness :
    ((0 : Int) = 0 ∧ [(⟨none, none, none, false, true, false, 44100, 2⟩ : RawDevice)] ≠ [] ∧
        (⟨none, none, none, false, true, false, 44100, 2⟩ : RawDevice).uid = none) ∧
      ((ListDevices 0 (some [⟨none, none, none, false, true, false, 44100, 2⟩])).devices.length =
          [(⟨none, none, none, false, true, false, 44100, 2⟩ : RawDevice)].length ∧
        (ListDevices 0 (some [⟨none, none, none, false, true, false, 44100, 2⟩])).devices[0]? =
          (([(⟨none, none, none, false, true, false, 44100, 2⟩ : RawDevice)])[0]?).map decodeDevice ∧
        (ListDevices 0 (some [⟨none, none, none, false, true, false, 44100, 2⟩])).threw = false ∧
        (ListDevices 0 (some [⟨none, none, none, false, true, false, 44100, 2⟩])).freeCalls = 1 ∧
        (decodeDevice ⟨none, none, none, false, true, false, 44100, 2⟩).id = emptyText ∧
        (decodeDevice ⟨none, none, none, false, true, false, 44100, 2⟩).name = emptyText ∧
        (decodeDevice ⟨none, none, none, false, true, false, 44100, 2⟩).manufacturer = emptyText ∧
        ListDevices 0 (some []) =
          { devices := [], threw := false, freeCalls := 0 }) :=
  ⟨⟨rfl, by simp, rfl⟩,
    list_devices_decodes_records 0 [⟨none, none, none, false, true, false, 44100, 2⟩]
      ⟨none, none, none, false, true, false, 44100, 2⟩ 0 rfl (by simp) rfl rfl rfl⟩

/-- C10: when the enumeration call reports a nonzero status or a null
device-array pointer, `ListDevices` returns an empty array, throws
nothing, calls the free function zero times, and is indistinguishable
from an enumeration that found zero devices. -/
theorem list_devices_failure_is_empty (status : Int)
    (deviceArray : Option (List RawDevice))
    (h : status ≠ 0 ∨ deviceArray = none) :
    ListDevices status deviceArray =
        { devices := [], threw := false, freeCalls := 0 } ∧
      ListDevices status deviceArray = ListDevices 0 (some []) := by
  have : ListDevices status deviceArray =
      { devices := [], threw := false, freeCalls := 0 } := by
    cases deviceArray with
    | none => rfl
    | some records =>
      rcases h with h | h
      · simp [ListDevices, h]
      · exact absurd h (by simp)
  exact ⟨this, by rw [this]; rfl⟩

/-- Witness for C10: a failed enumeration whose (never-read) array holds
one record still yields the empty outcome and frees nothing. -/
theorem list_devices_failure_is_empty_witness :
    ((-1 : Int) ≠ 0 ∨ (some [(⟨none, none, none, false, false, false, 0, 0⟩ : RawDevice)] :
        Option (List RawDevice)) = none) ∧
      (ListDevices (-1) (some [⟨none, none, none, false, false, false, 0, 0⟩]) =
          { devices := [], threw := false, freeCalls := 0 } ∧
        ListDevices (-1) (some [⟨none, none, none, false, false, false, 0, 0⟩]) =
          ListDevices 0 (some [])) :=
  ⟨Or.inl (by decide),
    list_devices_failure_is_empty (-1) (some [⟨none, none, none, false, false, false, 0, 0⟩])
      (Or.inl (by decide))⟩

/-! ### Permission façade (C7) -/

/-- An observable action performed on a per-request
`PermissionRequestContext`, identified by the context's allocation
number: calling the host's JS callback through the thread-safe function,
releasing the thread-safe function, or deleting the context. -/
inductive PermEffect where
  | invoke (ctx : Nat) (granted : Bool)
  | releaseTsfn (ctx : Nat)
  | deleteCtx (ctx : Nat)
deriving Repr, DecidableEq

/-- `PermissionRequestCallback` (audiotee_napi.cpp lines 318-327) and the
identical `SystemAudioPermissionCallback` / `MicPermissionCallback`
(coreaudio_napi.cpp lines 453-462 and 507-516): one native completion
performs exactly these three actions on its own context, in this order:
`tsfn.BlockingCall` invoking the JS callback with `granted`, then
`tsfn.Release()`, then `delete ctx`. -/
def PermissionRequestCallback (ctx : Nat) (granted : Bool) : List PermEffect :=
  [.invoke ctx granted, .releaseTsfn ctx, .deleteCtx ctx]

/-- `RequestPermission` (audiotee_napi.cpp lines 329-351): `new
PermissionRequestContext()` allocates a fresh context and hands exactly
that pointer to the native request.  Modelled with an allocation
counter: the call returns the fresh context id and the next counter. -/
def RequestPermission (nextCtxId : Nat) : Nat × Nat :=
  (nextCtxId, nextCtxId + 1)

/-- How many times the JS callback behind context `c` is invoked in an
effect trace. -/
def invokeCountFor (c : Nat) (l : List PermEffect) : Nat :=
  l.countP fun e =>
    match e with
    | .invoke c2 _ => decide (c2 = c)
    | _ => false

/-- How many times the thread-safe function of context `c` is released. -/
def releaseCountFor (c : Nat) (l : List PermEffect) : Nat :=
  l.countP fun e =>
    match e with
    | .releaseTsfn c2 => decide (c2 = c)
    | _ => false

/-- How many times context `c` is deleted. -/
def deleteCountFor (c : Nat) (l : List PermEffect) : Nat :=
  l.countP fun e =>
    match e with
    | .deleteCtx c2 => decide (c2 = c)
    | _ => false

/-- `Interleaving xs ys zs`: `zs` is one possible serialization of the
two concurrent effect sequences `xs` and `ys`, each kept in its own
order. -/
inductive Interleaving : List PermEffect → List PermEffect → List PermEffect → Prop where
  | nil : Interleaving [] [] []
  | left {x : PermEffect} {xs ys zs : List PermEffect} :
      Interleaving xs ys zs → Interleaving (x :: xs) ys (x :: zs)
  | right {y : PermEffect} {xs ys zs : List PermEffect} :
      Interleaving xs ys zs → Interleaving xs (y :: ys) (y :: zs)

/-- Counting distributes over an interleaving. -/
lemma Interleaving.countP_eq (p : PermEffect → Bool)
    {xs ys zs : List PermEffect} (h : Interleaving xs ys zs) :
    zs.countP p = xs.countP p + ys.countP p := by
  induction h with
  | nil => rfl
  | left _ ih => simp [List.countP_cons, ih]; omega
  | right _ ih => simp [List.countP_cons, ih]; omega

/-- Running one sequence before the other is one interleaving. -/
lemma interleaving_append (xs ys : List PermEffect) :
    Interleaving xs ys (xs ++ ys) := by
  induction xs with
  | nil =>
    induction ys with
    | nil => exact .nil
    | cons y ys ih => exact .right ih
  | cons x xs ih => exact .left ih

/-- C7: each of two concurrent permission requests allocates its own
fresh context (the two ids differ), and in every serialization of the
two completion callbacks each context's JS callback is invoked exactly
once, its thread-safe function released exactly once, and the context
deleted exactly once — no cross-talk, no leak, no double invocation. -/
theorem permission_request_callback_once (a0 : Nat) (g1 g2 : Bool)
    (l : List PermEffect)
    (h : Interleaving (PermissionRequestCallback (RequestPermission a0).1 g1)
      (PermissionRequestCallback (RequestPermission (RequestPermission a0).2).1 g2) l) :
    (RequestPermission a0).1 ≠ (RequestPermission (RequestPermission a0).2).1 ∧
      invokeCountFor (RequestPermission a0).1 l = 1 ∧
      invokeCountFor (RequestPermission (RequestPermission a0).2).1 l = 1 ∧
      releaseCountFor (RequestPermission a0).1 l = 1 ∧
      releaseCountFor (RequestPermission (RequestPermission a0).2).1 l = 1 ∧
      deleteCountFor (RequestPermission a0).1 l = 1 ∧
      deleteCountFor (RequestPermission (RequestPermission a0).2).1 l = 1 := by
  simp only [RequestPermission] at h ⊢
  refine ⟨by omega, ?_, ?_, ?_, ?_, ?_, ?_⟩ <;>
    · simp only [invokeCountFor, releaseCountFor, deleteCountFor, h.countP_eq,
        PermissionRequestCallback, List.countP_cons, List.countP_nil]
      simp

/-- Witness for C7: the serialization that runs the first completion
before the second. -/
theorem permission_request_callback_once_witness :
    Interleaving (PermissionRequestCallback (RequestPermission 0).1 true)
        (PermissionRequestCallback (RequestPermission (RequestPermission 0).2).1 false)
        (PermissionRequestCallback 0 true ++ PermissionRequestCallback 1 false) ∧
      ((RequestPermission 0).1 ≠ (RequestPermission (RequestPermission 0).2).1 ∧
        invokeCountFor (RequestPermission 0).1
            (PermissionRequestCallback 0 true ++ PermissionRequestCallback 1 false) = 1 ∧
        invokeCountFor (RequestPermission (RequestPermission 0).2).1
            (PermissionRequestCallback 0 true ++ PermissionRequestCallback 1 false) = 1 ∧
        releaseCountFor (RequestPermission 0).1
            (PermissionRequestCallback 0 true ++ PermissionRequestCallback 1 false) = 1 ∧
        releaseCountFor (RequestPermission (RequestPermission 0).2).1
            (PermissionRequestCallback 0 true ++ PermissionRequestCallback 1 false) = 1 ∧
        deleteCountFor (RequestPermission 0).1
            (PermissionRequestCallback 0 true ++ PermissionRequestCallback 1 false) = 1 ∧
        deleteCountFor (RequestPermission (RequestPermission 0).2).1
            (PermissionRequestCallback 0 true ++ PermissionRequestCallback 1 false) = 1) :=
  ⟨interleaving_append (PermissionRequestCallback 0 true) (PermissionRequestCallback 1 false),
    permission_request_callback_once 0 true false
      (PermissionRequestCallback 0 true ++ PermissionRequestCallback 1 false)
      (interleaving_append (PermissionRequestCallback 0 true)
        (PermissionRequestCallback 1 false))⟩

/-! ### JS option extraction (C9) -/

/-- A JavaScript value as the option readers see it.  `other` stands for
every value that is neither a number, boolean, string nor array (objects,
null, undefined, functions, ...). -/
inductive JsValue where
  | num (v : Rat)
  | bool (b : Bool)
  | str (s : String)
  | arr (elems : List JsValue)
  | other

/-- `IsNumber()`. -/
def JsValue.isNum : JsValue → Bool
  | .num _ => true
  | _ => false

/-- `IsBoolean()`. -/
def JsValue.isBool : JsValue → Bool
  | .bool _ => true
  | _ => false

/-- `IsString()`. -/
def JsValue.isStr : JsValue → Bool
  | .str _ => true
  | _ => false

/-- The options object: its own enumerable properties. -/
def JsObject : Type := List (String × JsValue)

/-- `options.Get(k)` for a key `k` that `options.Has(k)` reports. -/
def jsGet (o : JsObject) (k : String) : Option JsValue :=
  ((o : List (String × JsValue)).find? fun p => p.1 == k).map Prod.snd

/-- `options.Has(k) and options.Get(k).IsNumber()`. -/
def hasNumField (o : JsObject) (k : String) : Bool :=
  match jsGet o k with
  | some v => v.isNum
  | none => false

/-- `options.Has(k) and options.Get(k).IsBoolean()`. -/
def hasBoolField (o : JsObject) (k : String) : Bool :=
  match jsGet o k with
  | some v => v.isBool
  | none => false

/-- `options.Has(k) and options.Get(k).IsString()`. -/
def hasStrField (o : JsObject) (k : String) : Bool :=
  match jsGet o k with
  | some v => v.isStr
  | none => false

def sampleRateKey : String := "sampleRate"

def chunkDurationMsKey : String := "chunkDurationMs"

def muteKey : String := "mute"

def stereoKey : String := "stereo"

def deviceIdKey : String := "deviceId"

def gainKey : String := "gain"

/-- `double sampleRate = 0;` overwritten only by a present numeric field
(audiotee_napi.cpp lines 109-112, same in coreaudio_napi.cpp). -/
def getSampleRate (o : JsObject) : Rat :=
  match jsGet o sampleRateKey with
  | some (.num v) => v
  | _ => 0

/-- `double chunkDurationMs = 200;` (lines 114-117). -/
def getChunkDurationMs (o : JsObject) : Rat :=
  match jsGet o chunkDurationMsKey with
  | some (.num v) => v
  | _ => 200

/-- `bool mute = false;` (lines 119-122). -/
def getMute (o : JsObject) : Bool :=
  match jsGet o muteKey with
  | some (.bool b) => b
  | _ => false

/-- `bool isMono = true;` negated from a present boolean `stereo` field
(lines 124-127). -/
def getIsMono (o : JsObject) : Bool :=
  match jsGet o stereoKey with
  | some (.bool b) => !b
  | _ => true

/-- `const char* deviceUID = nullptr;` overwritten only by a present
string field (coreaudio_napi.cpp lines 201-206). -/
def getDeviceUID (o : JsObject) : Option String :=
  match jsGet o deviceIdKey with
  | some (.str s) => some s
  | _ => none

/-- `double gain = 1.0;` (coreaudio_napi.cpp lines 208-211). -/
def getGain (o : JsObject) : Rat :=
  match jsGet o gainKey with
  | some (.num v) => v
  | _ => 1

/-- ECMAScript ToInt32 on a finite numeric value, as performed by
`Napi::Number::Int32Value()`: truncate toward zero, wrap modulo 2^32
into the signed 32-bit range. -/
def toInt32 (q : Rat) : Int :=
  let t : Int := Int.tdiv q.num (q.den : Int)
  let m : Int := Int.emod t 4294967296
  if m ≥ 2147483648 then m - 4294967296 else m

/-- The body of the process-array loops (audiotee_napi.cpp lines 135-139
and 144-148): a numeric element contributes its `Int32Value()`, every
other element is skipped. -/
def pidOfJsValue : JsValue → Option Int
  | .num q => some (toInt32 q)
  | _ => none

/-- One whole process-array loop: the int32 pids of the numeric
elements, in order. -/
def extractPids (vs : List JsValue) : List Int :=
  vs.filterMap pidOfJsValue

/-- A process-filter field (lines 133-149): an absent or non-array field
contributes an empty pid list. -/
def getProcessList (o : JsObject) (k : String) : List Int :=
  match jsGet o k with
  | some (.arr vs) => extractPids vs
  | _ => []

/-- The argument tuple `Start`/`StartSystemAudio` forwards to
`audiotee_start` / `coreaudio_start_system_audio` (audiotee_napi.cpp
lines 151-161). -/
structure StartArgs where
  sampleRate : Rat
  chunkDurationMs : Rat
  mute : Bool
  isMono : Bool
  includePids : List Int
  excludePids : List Int
deriving Repr, DecidableEq

def includeProcessesKey : String := "includeProcesses"

def excludeProcessesKey : String := "excludeProcesses"

/-- Option extraction of `Start`/`StartSystemAudio` as a whole. -/
def startArgsOfOptions (o : JsObject) : StartArgs :=
  { sampleRate := getSampleRate o, chunkDurationMs := getChunkDurationMs o,
    mute := getMute o, isMono := getIsMono o,
    includePids := getProcessList o includeProcessesKey,
    excludePids := getProcessList o excludeProcessesKey }

/-- The argument tuple `StartMicrophone` forwards to
`coreaudio_start_microphone` (coreaudio_napi.cpp lines 213-220). -/
structure MicArgs where
  sampleRate : Rat
  chunkDurationMs : Rat
  isMono : Bool
  deviceUID : Option String
  gain : Rat
deriving Repr, DecidableEq

/-- Option extraction of `StartMicrophone` as a whole. -/
def micArgsOfOptions (o : JsObject) : MicArgs :=
  { sampleRate := getSampleRate o, chunkDurationMs := getChunkDurationMs o,
    isMono := getIsMono o, deviceUID := getDeviceUID o, gain := getGain o }

/-- C9: every option field that is absent or has the wrong type is
replaced by its fixed default before forwarding — sampleRate 0,
chunkDurationMs 200, mute false, mono true, gain 1, no device selection —
and a non-numeric element of a process array is skipped without
affecting the rest of the list. -/
theorem start_options_defaults (o : JsObject) (xs ys : List JsValue)
    (v : JsValue)
    (h1 : hasNumField o sampleRateKey = false)
    (h2 : hasNumField o chunkDurationMsKey = false)
    (h3 : hasBoolField o muteKey = false)
    (h4 : hasBoolField o stereoKey = false)
    (h5 : hasNumField o gainKey = false)
    (h6 : hasStrField o deviceIdKey = false)
    (hv : v.isNum = false) :
    (startArgsOfOptions o).sampleRate = 0 ∧
      (startArgsOfOptions o).chunkDurationMs = 200 ∧
      (startArgsOfOptions o).mute = false ∧
      (startArgsOfOptions o).isMono = true ∧
      (micArgsOfOptions o).gain = 1 ∧
      (micArgsOfOptions o).deviceUID = none ∧
      extractPids (xs ++ v :: ys) = extractPids (xs ++ ys) := by
  have hskip : extractPids (xs ++ v :: ys) = extractPids (xs ++ ys) := by
    have hnone : pidOfJsValue v = none := by
      cases v <;> simp_all [JsValue.isNum, pidOfJsValue]
    simp [extractPids, List.filterMap_append, List.filterMap_cons, hnone]
  refine ⟨?_, ?_, ?_, ?_, ?_, ?_, hskip⟩
  · simp only [startArgsOfOptions, getSampleRate]
    revert h1
    unfold hasNumField
    cases jsGet o sampleRateKey with
    | none => intro; rfl
    | some v => cases v <;> simp [JsValue.isNum]
  · simp only [startArgsOfOptions, getChunkDurationMs]
    revert h2
    unfold hasNumField
    cases jsGet o chunkDurationMsKey with
    | none => intro; rfl
    | some v => cases v <;> simp [JsValue.isNum]
  · simp only [startArgsOfOptions, getMute]
    revert h3
    unfold hasBoolField
    cases jsGet o muteKey with
    | none => intro; rfl
    | some v => cases v <;> simp [JsValue.isBool]
  · simp only [startArgsOfOptions, getIsMono]
    revert h4
    unfold hasBoolField
    cases jsGet o stereoKey with
    | none => intro; rfl
    | some v => cases v <;> simp [JsValue.isBool]
  · simp only [micArgsOfOptions, getGain]
    revert h5
    unfold hasNumField
    cases jsGet o gainKey with
    | none => intro; rfl
    | some v => cases v <;> simp [JsValue.isNum]
  · simp only [micArgsOfOptions, getDeviceUID]
    revert h6
    unfold hasStrField
    cases jsGet o deviceIdKey with
    | none => intro; rfl
    | some v => cases v <;> simp [JsValue.isStr]

/-- Witness for C9: an options object whose every relevant field has the
wrong type, and a process array `[5, true, 7]` whose boolean entry is
skipped. -/
theorem start_options_defaults_witness :
    (hasNumField [(sampleRateKey, JsValue.bool true)] sampleRateKey = false ∧
        hasBoolField [(sampleRateKey, JsValue.bool true)] muteKey = false ∧
        (JsValue.bool true).isNum = false) ∧
      ((startArgsOfOptions [(sampleRateKey, JsValue.bool true)]).sampleRate = 0 ∧
        (startArgsOfOptions [(sampleRateKey, JsValue.bool true)]).chunkDurationMs = 200 ∧
        (startArgsOfOptions [(sampleRateKey, JsValue.bool true)]).mute = false ∧
        (startArgsOfOptions [(sampleRateKey, JsValue.bool true)]).isMono = true ∧
        (micArgsOfOptions [(sampleRateKey, JsValue.bool true)]).gain = 1 ∧
        (micArgsOfOptions [(sampleRateKey, JsValue.bool true)]).deviceUID = none ∧
        extractPids ([JsValue.num 5] ++ JsValue.bool true :: [JsValue.num 7]) =
          extractPids ([JsValue.num 5] ++ [JsValue.num 7])) :=
  ⟨⟨rfl, rfl, rfl⟩,
    start_options_defaults [(sampleRateKey, JsValue.bool true)]
      [JsValue.num 5] [JsValue.num 7] (JsValue.bool true)
      rfl rfl rfl rfl rfl rfl rfl⟩

end NativeAudio
